import Mathlib

/-!
Verification development for the lorel.ai RunPod orchestration core.

The Python sources are shallowly embedded: pure functions become Lean
functions, network interactions become oracles (explicit lists or functions
describing each response), Python floats for prices become exact rationals,
and Python dictionaries become association lists.  Each definition mirrors
one function of the source tree, keeping its name where Lean allows.
-/

namespace Lorel

/-- Mirrors `GPUInfo` from `src/modules/api_client.py`: a GPU catalog entry
with per-tier / per-pricing-mode prices (absent price = marketplace has no
current offer) and tier availability flags. -/
structure GPUInfo where
  id : String
  display_name : String
  memory_in_gb : Nat
  secure_price : Option ℚ
  community_price : Option ℚ
  secure_spot_price : Option ℚ
  community_spot_price : Option ℚ
  secure_cloud : Bool
  community_cloud : Bool
deriving DecidableEq, Repr

/-- Mirrors `GPUSelection` from `src/modules/gpu_selector.py`. -/
structure GPUSelection where
  gpu_type_id : String
  display_name : String
  gpu_count : Nat
  cost_per_hour : ℚ
  memory_gb : Nat
deriving DecidableEq, Repr

/-- The price field matching (cloud tier x spot flag), as selected inside
`select_optimal_gpu` / `select_all_candidate_gpus` (the `if cloud_type ==
"SECURE"` / `else` branch of the price lookup). -/
def priceFor (gpu : GPUInfo) (cloud_type : String) (is_spot : Bool) : Option ℚ :=
  if cloud_type == "SECURE" then
    if is_spot then gpu.secure_spot_price else gpu.secure_price
  else
    if is_spot then gpu.community_spot_price else gpu.community_price

/-- The per-offer filter body shared verbatim by `select_optimal_gpu` and
`select_all_candidate_gpus` in `src/modules/gpu_selector.py`: reject on
unsupported cloud tier, insufficient VRAM, absent price, or price above the
ceiling; otherwise build the `GPUSelection`. -/
def candidateOf (min_vram_gb : Nat) (max_cost : ℚ) (cloud_type : String)
    (is_spot : Bool) (gpu : GPUInfo) : Option GPUSelection :=
  if cloud_type == "SECURE" && !gpu.secure_cloud then none
  else if cloud_type == "COMMUNITY" && !gpu.community_cloud then none
  else if gpu.memory_in_gb < min_vram_gb then none
  else
    match priceFor gpu cloud_type is_spot with
    | none => none
    | some price =>
      if max_cost < price then none
      else some
        { gpu_type_id := gpu.id
          display_name := gpu.display_name
          gpu_count := 1
          cost_per_hour := price
          memory_gb := gpu.memory_in_gb }

/-- The accumulation loop of `select_all_candidate_gpus` before the final
sort: the surviving offers, in catalog order. -/
def selectCandidates (gpu_types : List GPUInfo) (min_vram_gb : Nat)
    (max_cost : ℚ) (cloud_type : String) (is_spot : Bool) : List GPUSelection :=
  gpu_types.filterMap (candidateOf min_vram_gb max_cost cloud_type is_spot)

/-- The comparison used by `candidates.sort(key=lambda x: x.cost_per_hour)`:
Python `list.sort` is a stable sort ascending by the key. -/
def costLe (a b : GPUSelection) : Bool :=
  decide (a.cost_per_hour ≤ b.cost_per_hour)

/-- Mirrors `select_all_candidate_gpus` from `src/modules/gpu_selector.py`:
all surviving offers, stably sorted ascending by cost per hour (Python's
stable `list.sort` is modelled by the stable `List.mergeSort`). -/
def select_all_candidate_gpus (gpu_types : List GPUInfo) (min_vram_gb : Nat)
    (max_cost : ℚ) (cloud_type : String) (is_spot : Bool) : List GPUSelection :=
  (selectCandidates gpu_types min_vram_gb max_cost cloud_type is_spot).mergeSort costLe

/-- The three diagnostics `select_optimal_gpu` can produce when no candidate
survives.  The source renders these as formatted strings; here each message
is modelled as a tagged value carrying the data interpolated into it. -/
inductive SelectionDiag
  | noGPUsInCloud (cloud_type : String)
  | insufficientVRAM (min_vram_gb : Nat) (max_available : Nat)
  | overBudget (max_cost : ℚ)
deriving DecidableEq, Repr

/-- Python's `max(g.memory_in_gb for g in gpus)` over a nonempty list
(the source only evaluates it when `available_gpus` is nonempty). -/
def maxMem : List GPUInfo → Nat
  | [] => 0
  | g :: gs => gs.foldl (fun m h => Nat.max m h.memory_in_gb) g.memory_in_gb

/-- The `available_gpus` comprehension inside `select_optimal_gpu`: the
offers supporting the requested cloud tier. -/
def available_gpus (gpu_types : List GPUInfo) (cloud_type : String) : List GPUInfo :=
  gpu_types.filter (fun g =>
    (cloud_type == "SECURE" && g.secure_cloud) ||
    (cloud_type == "COMMUNITY" && g.community_cloud))

/-- The `vram_filtered` comprehension inside `select_optimal_gpu`: the
tier-supporting offers meeting the VRAM floor. -/
def vram_filtered (gpu_types : List GPUInfo) (cloud_type : String)
    (min_vram_gb : Nat) : List GPUInfo :=
  (available_gpus gpu_types cloud_type).filter (fun g =>
    decide (min_vram_gb ≤ g.memory_in_gb))

/-- Mirrors `select_optimal_gpu` from `src/modules/gpu_selector.py`: the
same filter loop, then either the cheapest candidate or the prioritised
diagnostic built from `available_gpus` and `vram_filtered`. -/
def select_optimal_gpu (gpu_types : List GPUInfo) (min_vram_gb : Nat)
    (max_cost : ℚ) (cloud_type : String) (is_spot : Bool) :
    Option GPUSelection × Option SelectionDiag :=
  let candidates := selectCandidates gpu_types min_vram_gb max_cost cloud_type is_spot
  if candidates.isEmpty then
    if (available_gpus gpu_types cloud_type).isEmpty then
      (none, some (.noGPUsInCloud cloud_type))
    else
      if (vram_filtered gpu_types cloud_type min_vram_gb).isEmpty then
        (none, some (.insufficientVRAM min_vram_gb
          (maxMem (available_gpus gpu_types cloud_type))))
      else
        (none, some (.overBudget max_cost))
  else
    ((candidates.mergeSort costLe).head?, none)

/-- The offer called A in the worked example of the spec:
16 GB of VRAM, secure on-demand price 0.20 dollars per hour. -/
def gpuA : GPUInfo := ⟨"a", "A", 16, some (mkRat 1 5), none, none, none, true, false⟩

/-- Offer B of the worked example: 24 GB, 0.40 dollars per hour. -/
def gpuB : GPUInfo := ⟨"b", "B", 24, some (mkRat 2 5), none, none, none, true, false⟩

/-- Offer C of the worked example: 40 GB, 0.60 dollars per hour. -/
def gpuC : GPUInfo := ⟨"c", "C", 40, some (mkRat 3 5), none, none, none, true, false⟩

/-- The candidate A resolves to under (SECURE, on-demand). -/
def selA : GPUSelection := ⟨"a", "A", 1, mkRat 1 5, 16⟩

/-- The candidate B resolves to under (SECURE, on-demand). -/
def selB : GPUSelection := ⟨"b", "B", 1, mkRat 2 5, 24⟩

theorem costLe_trans : ∀ a b c : GPUSelection, costLe a b → costLe b c → costLe a c := by
  intro a b c hab hbc
  simp only [costLe, decide_eq_true_eq] at hab hbc ⊢
  exact le_trans hab hbc

theorem costLe_total : ∀ a b : GPUSelection, costLe a b || costLe b a := by
  intro a b
  simp only [costLe, Bool.or_eq_true, decide_eq_true_eq]
  exact le_total _ _

theorem candidateOf_eq_some {min_vram_gb : Nat} {max_cost : ℚ} {cloud_type : String}
    {is_spot : Bool} {gpu : GPUInfo} {c : GPUSelection}
    (h : candidateOf min_vram_gb max_cost cloud_type is_spot gpu = some c) :
    (cloud_type = "SECURE" → gpu.secure_cloud) ∧
    (cloud_type = "COMMUNITY" → gpu.community_cloud) ∧
    min_vram_gb ≤ gpu.memory_in_gb ∧
    ∃ price, priceFor gpu cloud_type is_spot = some price ∧ price ≤ max_cost ∧
      c = ⟨gpu.id, gpu.display_name, 1, price, gpu.memory_in_gb⟩ := by
  rw [candidateOf] at h
  split at h
  · exact absurd h (by simp)
  next h1 =>
  split at h
  · exact absurd h (by simp)
  next h2 =>
  split at h
  · exact absurd h (by simp)
  next h3 =>
  split at h
  · exact absurd h (by simp)
  next price hp =>
  split at h
  · exact absurd h (by simp)
  next h4 =>
  refine ⟨?_, ?_, Nat.not_lt.mp h3, price, hp, not_lt.mp h4,
    (Option.some_inj.mp h).symm⟩
  · intro he; subst he; simpa using h1
  · intro he; subst he; simpa using h2

/-- C1: every candidate returned by the fallback-list selector
`select_all_candidate_gpus` comes from an offer that supports the requested
cloud tier, has `memory_in_gb` at least the minimum VRAM, and has the price
field matching (cloud tier x spot flag) defined and at most the maximum
cost; the candidate's `cost_per_hour` equals that selected price field. -/
theorem C1_select_all_candidates_sound
    (gpu_types : List GPUInfo) (min_vram_gb : Nat) (max_cost : ℚ)
    (cloud_type : String) (is_spot : Bool) (c : GPUSelection)
    (hmem : c ∈ select_all_candidate_gpus gpu_types min_vram_gb max_cost cloud_type is_spot) :
    ∃ gpu ∈ gpu_types,
      (cloud_type = "SECURE" → gpu.secure_cloud) ∧
      (cloud_type = "COMMUNITY" → gpu.community_cloud) ∧
      min_vram_gb ≤ gpu.memory_in_gb ∧
      ∃ price, priceFor gpu cloud_type is_spot = some price ∧
        price ≤ max_cost ∧ c.cost_per_hour = price := by
  rw [select_all_candidate_gpus, List.mem_mergeSort, selectCandidates,
    List.mem_filterMap] at hmem
  obtain ⟨gpu, hg, hc⟩ := hmem
  obtain ⟨hs, hcm, hv, price, hp, hle, hceq⟩ := candidateOf_eq_some hc
  exact ⟨gpu, hg, hs, hcm, hv, price, hp, hle, by rw [hceq]⟩

theorem select_all_single :
    select_all_candidate_gpus [gpuA] 16 (mkRat 1 2) "SECURE" false = [selA] := by
  rw [select_all_candidate_gpus]
  have h : selectCandidates [gpuA] 16 (mkRat 1 2) "SECURE" false = [selA] := by decide
  rw [h, List.mergeSort_singleton]

theorem C1_select_all_candidates_sound_witness :
    ∃ gpu ∈ [gpuA],
      (("SECURE" : String) = "SECURE" → gpu.secure_cloud) ∧
      (("SECURE" : String) = "COMMUNITY" → gpu.community_cloud) ∧
      16 ≤ gpu.memory_in_gb ∧
      ∃ price, priceFor gpu "SECURE" false = some price ∧
        price ≤ mkRat 1 2 ∧ selA.cost_per_hour = price :=
  C1_select_all_candidates_sound [gpuA] 16 (mkRat 1 2) "SECURE" false selA
    (by rw [select_all_single]; exact List.mem_singleton_self _)

theorem filter_key_pairwise (l : List GPUSelection) (q : ℚ) :
    (l.filter (fun c => c.cost_per_hour == q)).Pairwise (fun a b => costLe a b = true) := by
  apply List.pairwise_of_forall_mem_list
  intro a ha b hb
  rw [List.mem_filter] at ha hb
  have ha2 : a.cost_per_hour = q := by simpa using ha.2
  have hb2 : b.cost_per_hour = q := by simpa using hb.2
  simp [costLe, ha2, hb2]

/-- C2: the candidate list returned by `select_all_candidate_gpus` is sorted
non-decreasing by `cost_per_hour`; the sort is stable, i.e. restricting the
output to any fixed cost gives exactly the equal-cost candidates in their
original catalog order; and on the worked example (A 16GB 0.20, B 24GB 0.40,
C 40GB 0.60, minimum VRAM 16, maximum cost 0.50) the result is exactly
[A, B] with C excluded. -/
theorem C2_select_all_candidates_sorted_stable
    (gpu_types : List GPUInfo) (min_vram_gb : Nat) (max_cost : ℚ)
    (cloud_type : String) (is_spot : Bool) :
    (select_all_candidate_gpus gpu_types min_vram_gb max_cost cloud_type is_spot).Pairwise
      (fun a b => a.cost_per_hour ≤ b.cost_per_hour) ∧
    (∀ q : ℚ,
      (select_all_candidate_gpus gpu_types min_vram_gb max_cost cloud_type is_spot).filter
          (fun c => c.cost_per_hour == q) =
        (selectCandidates gpu_types min_vram_gb max_cost cloud_type is_spot).filter
          (fun c => c.cost_per_hour == q)) ∧
    select_all_candidate_gpus [gpuA, gpuB, gpuC] 16 (mkRat 1 2) "SECURE" false =
      [selA, selB] := by
  refine ⟨?_, ?_, ?_⟩
  · have hs := List.sorted_mergeSort costLe_trans costLe_total
      (selectCandidates gpu_types min_vram_gb max_cost cloud_type is_spot)
    rw [select_all_candidate_gpus]
    exact List.Pairwise.imp (fun hab => by simpa [costLe] using hab) hs
  · intro q
    rw [select_all_candidate_gpus]
    have hpw := filter_key_pairwise
      (selectCandidates gpu_types min_vram_gb max_cost cloud_type is_spot) q
    have hsub := List.filter_sublist (p := fun c => c.cost_per_hour == q)
      (selectCandidates gpu_types min_vram_gb max_cost cloud_type is_spot)
    have hst := List.sublist_mergeSort costLe_trans costLe_total hpw hsub
    have hsub2 := List.Sublist.filter (fun c => c.cost_per_hour == q) hst
    rw [List.filter_filter] at hsub2
    have hself :
        (selectCandidates gpu_types min_vram_gb max_cost cloud_type is_spot).filter
            (fun a => (a.cost_per_hour == q) && (a.cost_per_hour == q)) =
          (selectCandidates gpu_types min_vram_gb max_cost cloud_type is_spot).filter
            (fun a => a.cost_per_hour == q) := by
      congr 1
      funext a
      rw [Bool.and_self]
    rw [hself] at hsub2
    have hperm := List.Perm.filter (fun c => c.cost_per_hour == q)
      (List.mergeSort_perm
        (selectCandidates gpu_types min_vram_gb max_cost cloud_type is_spot) costLe)
    exact (List.Sublist.eq_of_length hsub2 hperm.length_eq.symm).symm
  · rw [select_all_candidate_gpus]
    have h : selectCandidates [gpuA, gpuB, gpuC] 16 (mkRat 1 2) "SECURE" false =
        [selA, selB] := by decide
    rw [h]
    exact List.mergeSort_of_sorted (by decide)

/-- C3: the best-single selector agrees with the fallback-list selector:
when the fallback list is non-empty, `select_optimal_gpu` returns its first
element and no error; when it is empty, it returns no selection and an
error diagnostic. -/
theorem C3_select_optimal_refines
    (gpu_types : List GPUInfo) (min_vram_gb : Nat) (max_cost : ℚ)
    (cloud_type : String) (is_spot : Bool) :
    (select_all_candidate_gpus gpu_types min_vram_gb max_cost cloud_type is_spot ≠ [] →
      select_optimal_gpu gpu_types min_vram_gb max_cost cloud_type is_spot =
        ((select_all_candidate_gpus gpu_types min_vram_gb max_cost cloud_type is_spot).head?,
          none)) ∧
    (select_all_candidate_gpus gpu_types min_vram_gb max_cost cloud_type is_spot = [] →
      (select_optimal_gpu gpu_types min_vram_gb max_cost cloud_type is_spot).1 = none ∧
      ((select_optimal_gpu gpu_types min_vram_gb max_cost cloud_type is_spot).2).isSome =
        true) := by
  have key : (selectCandidates gpu_types min_vram_gb max_cost cloud_type is_spot).isEmpty =
      true ↔
      select_all_candidate_gpus gpu_types min_vram_gb max_cost cloud_type is_spot = [] := by
    rw [List.isEmpty_iff, select_all_candidate_gpus]
    constructor
    · intro h; rw [h, List.mergeSort_nil]
    · intro h
      have hlen := congrArg List.length h
      rw [List.length_mergeSort] at hlen
      exact List.length_eq_zero.mp hlen
  constructor
  · intro hne
    have hc : (selectCandidates gpu_types min_vram_gb max_cost cloud_type is_spot).isEmpty =
        false := by
      cases hAll : (selectCandidates gpu_types min_vram_gb max_cost
          cloud_type is_spot).isEmpty with
      | false => rfl
      | true => exact absurd (key.mp hAll) hne
    rw [select_optimal_gpu, select_all_candidate_gpus]
    simp [hc]
  · intro heq
    have hc := key.mpr heq
    rw [select_optimal_gpu]
    simp only [hc, if_true]
    constructor
    · split
      · rfl
      · split <;> rfl
    · split
      · rfl
      · split <;> rfl

theorem C3_select_optimal_refines_witness :
    select_optimal_gpu [gpuA] 16 (mkRat 1 2) "SECURE" false =
      ((select_all_candidate_gpus [gpuA] 16 (mkRat 1 2) "SECURE" false).head?, none) :=
  (C3_select_optimal_refines [gpuA] 16 (mkRat 1 2) "SECURE" false).1
    (by rw [select_all_single]; exact List.cons_ne_nil _ _)

theorem foldl_max_acc_le (gs : List GPUInfo) (a : Nat) :
    a ≤ gs.foldl (fun m h => Nat.max m h.memory_in_gb) a := by
  induction gs generalizing a with
  | nil => exact Nat.le_refl a
  | cons g gs ih => exact Nat.le_trans (Nat.le_max_left _ _) (ih _)

theorem foldl_max_mem_le (gs : List GPUInfo) (a : Nat) :
    ∀ g ∈ gs, g.memory_in_gb ≤ gs.foldl (fun m h => Nat.max m h.memory_in_gb) a := by
  induction gs generalizing a with
  | nil => intro g hg; exact absurd hg (List.not_mem_nil g)
  | cons gh gs ih =>
    intro g hg
    rcases List.mem_cons.mp hg with h | h
    · subst h
      exact Nat.le_trans (Nat.le_max_right a g.memory_in_gb) (foldl_max_acc_le gs _)
    · exact ih _ g h

theorem foldl_max_eq_acc_or_mem (gs : List GPUInfo) (a : Nat) :
    gs.foldl (fun m h => Nat.max m h.memory_in_gb) a = a ∨
    ∃ g ∈ gs, gs.foldl (fun m h => Nat.max m h.memory_in_gb) a = g.memory_in_gb := by
  induction gs generalizing a with
  | nil => exact Or.inl rfl
  | cons gh gs ih =>
    rw [List.foldl_cons]
    rcases ih (Nat.max a gh.memory_in_gb) with h | ⟨g, hg, h⟩
    · rcases Nat.le_total a gh.memory_in_gb with hle | hle
      · right
        refine ⟨gh, List.mem_cons_self _ _, ?_⟩
        rw [h]
        exact Nat.max_eq_right hle
      · left
        rw [h]
        exact Nat.max_eq_left hle
    · right
      refine ⟨g, List.mem_cons_of_mem _ hg, h⟩

theorem maxMem_spec (l : List GPUInfo) (hne : l ≠ []) :
    maxMem l ∈ l.map (fun g => g.memory_in_gb) ∧
    ∀ g ∈ l, g.memory_in_gb ≤ maxMem l := by
  cases l with
  | nil => exact absurd rfl hne
  | cons g gs =>
    constructor
    · rw [maxMem]
      rcases foldl_max_eq_acc_or_mem gs g.memory_in_gb with h | ⟨gx, hgx, h⟩
      · rw [h]; exact List.mem_map_of_mem _ (List.mem_cons_self _ _)
      · rw [h]; exact List.mem_map_of_mem _ (List.mem_cons_of_mem _ hgx)
    · intro gx hgx
      rw [maxMem]
      rcases List.mem_cons.mp hgx with h | h
      · subst h; exact foldl_max_acc_le gs _
      · exact foldl_max_mem_le gs _ gx h

/-- C4: when no candidate survives, `select_optimal_gpu` produces the
diagnostic chosen by priority: (a) no offer supports the requested cloud
tier; (b) otherwise no tier-supporting offer meets the VRAM floor, and the
reported number is the maximum available VRAM among tier-supporting offers;
(c) otherwise all remaining offers exceed the cost ceiling. -/
theorem C4_select_optimal_diagnostic
    (gpu_types : List GPUInfo) (min_vram_gb : Nat) (max_cost : ℚ)
    (cloud_type : String) (is_spot : Bool)
    (h : (select_optimal_gpu gpu_types min_vram_gb max_cost cloud_type is_spot).1 = none) :
    (available_gpus gpu_types cloud_type = [] →
      (select_optimal_gpu gpu_types min_vram_gb max_cost cloud_type is_spot).2 =
        some (SelectionDiag.noGPUsInCloud cloud_type)) ∧
    (available_gpus gpu_types cloud_type ≠ [] →
      vram_filtered gpu_types cloud_type min_vram_gb = [] →
      (select_optimal_gpu gpu_types min_vram_gb max_cost cloud_type is_spot).2 =
        some (SelectionDiag.insufficientVRAM min_vram_gb
          (maxMem (available_gpus gpu_types cloud_type))) ∧
      maxMem (available_gpus gpu_types cloud_type) ∈
        (available_gpus gpu_types cloud_type).map (fun g => g.memory_in_gb) ∧
      ∀ g ∈ available_gpus gpu_types cloud_type,
        g.memory_in_gb ≤ maxMem (available_gpus gpu_types cloud_type)) ∧
    (available_gpus gpu_types cloud_type ≠ [] →
      vram_filtered gpu_types cloud_type min_vram_gb ≠ [] →
      (select_optimal_gpu gpu_types min_vram_gb max_cost cloud_type is_spot).2 =
        some (SelectionDiag.overBudget max_cost)) := by
  have hc : (selectCandidates gpu_types min_vram_gb max_cost cloud_type is_spot).isEmpty =
      true := by
    cases hAll : (selectCandidates gpu_types min_vram_gb max_cost
        cloud_type is_spot).isEmpty with
    | true => rfl
    | false =>
      exfalso
      have hne := List.isEmpty_eq_false.mp hAll
      rw [select_optimal_gpu] at h
      simp only [hAll, Bool.false_eq_true, if_false] at h
      rw [List.head?_eq_none_iff] at h
      have hlen := congrArg List.length h
      rw [List.length_mergeSort] at hlen
      exact hne (List.length_eq_zero.mp hlen)
  refine ⟨?_, ?_, ?_⟩
  · intro ha
    rw [select_optimal_gpu]
    simp [hc, ha]
  · intro ha hv
    have hmax := maxMem_spec (available_gpus gpu_types cloud_type) ha
    refine ⟨?_, hmax.1, hmax.2⟩
    rw [select_optimal_gpu]
    have hae := List.isEmpty_eq_false.mpr ha
    simp [hc, hae, hv]
  · intro ha hv
    rw [select_optimal_gpu]
    have hae := List.isEmpty_eq_false.mpr ha
    have hve := List.isEmpty_eq_false.mpr hv
    simp [hc, hae, hve]

theorem C4_select_optimal_diagnostic_witness :
    (select_optimal_gpu [gpuA] 100 (mkRat 1 2) "SECURE" false).2 =
      some (SelectionDiag.insufficientVRAM 100 (maxMem (available_gpus [gpuA] "SECURE"))) ∧
    maxMem (available_gpus [gpuA] "SECURE") ∈
      (available_gpus [gpuA] "SECURE").map (fun g => g.memory_in_gb) ∧
    ∀ g ∈ available_gpus [gpuA] "SECURE",
      g.memory_in_gb ≤ maxMem (available_gpus [gpuA] "SECURE") :=
  (C4_select_optimal_diagnostic [gpuA] 100 (mkRat 1 2) "SECURE" false (by decide)).2.1
    (by decide) (by decide)

/-- One transport-level outcome for an attempt of `RunPodAPIClient._request`
in `src/modules/api_client.py`: either the HTTP exchange completed with a
status code and body (statuses 400 and above make `raise_for_status` throw a
`RequestException` carrying that response), or the request raised with no
response attached. -/
inductive NetResult
  | resp (status : Nat) (body : String)
  | exnNoResp
deriving DecidableEq, Repr

/-- The check `"no longer any instances available" in error_body.lower()`
from `_request`: Python's lowercasing and substring test, modelled over the
character list of the body. -/
def containsCapacityPhrase (body : String) : Bool :=
  decide ("no longer any instances available".data <:+: body.data.map Char.toLower)

/-- Result of `_request`.  `ok none` covers both an HTTP 204 response and
the implicit `None` returned when the `for` loop runs out with every
attempt rate-limited. -/
inductive ReqResult
  | ok (body : Option String)
  | noInstances (msg : String)
  | apiError (status : Nat) (body : String)
  | transportError (attempts : Nat)
deriving DecidableEq, Repr

/-- The retry loop of `RunPodAPIClient._request`, consuming one `NetResult`
per executed attempt.  Returns the result together with the list of sleep
durations (in seconds) performed, in order.  `attempt` is the 0-based index
of `for attempt in range(retry_count)`; on 429 the client sleeps
`2 ** attempt` and continues, on any other failure it sleeps 1 second and
retries while attempts remain, raising `NoInstancesAvailableError` at once
when the error body carries the capacity-exhaustion phrase. -/
def requestLoop (retry_count : Nat) : Nat → List NetResult → ReqResult × List Nat
  | _, [] => (.ok none, [])
  | attempt, s :: rest =>
    if attempt < retry_count then
      match s with
      | .resp status body =>
        if status == 429 then
          let r := requestLoop retry_count (attempt + 1) rest
          (r.1, 2 ^ attempt :: r.2)
        else if 400 ≤ status then
          if containsCapacityPhrase body then
            (.noInstances (body.take 100), [])
          else if attempt < retry_count - 1 then
            let r := requestLoop retry_count (attempt + 1) rest
            (r.1, 1 :: r.2)
          else
            (.apiError status (body.take 200), [])
        else if status == 204 then (.ok none, [])
        else (.ok (some body), [])
      | .exnNoResp =>
        if attempt < retry_count - 1 then
          let r := requestLoop retry_count (attempt + 1) rest
          (r.1, 1 :: r.2)
        else (.transportError retry_count, [])
    else (.ok none, [])

/-- `RunPodAPIClient._request` with its default budget of 3 attempts,
starting at attempt index 0. -/
def request (steps : List NetResult) : ReqResult × List Nat :=
  requestLoop 3 0 steps

/-- C5 counterexample: a 429 on the first attempt sleeps `2 ** 0 = 1`
second, not 2 seconds as the claim's concrete scenario states; the call
still returns successfully after the second attempt. -/
theorem C5_backoff_counterexample :
    request [NetResult.resp 429 "", NetResult.resp 200 "{}"] =
      (ReqResult.ok (some "{}"), [1]) ∧
    (request [NetResult.resp 429 "", NetResult.resp 200 "{}"]).2 ≠ [2] := by
  constructor
  · rfl
  · decide

/-- C5 (amended): an HTTP 429 response at 0-based attempt index `attempt`
causes a sleep of `2 ^ attempt` seconds followed by a retry that consumes
one unit of the retry budget; for a 429 on the first attempt this backoff
is `2 ^ 0 = 1` second, and a success on the second attempt then yields a
successful return, not a terminal failure. -/
theorem C5_requestLoop_backoff
    (retry_count attempt : Nat) (body : String) (rest : List NetResult)
    (h : attempt < retry_count) :
    requestLoop retry_count attempt (NetResult.resp 429 body :: rest) =
      ((requestLoop retry_count (attempt + 1) rest).1,
        2 ^ attempt :: (requestLoop retry_count (attempt + 1) rest).2) := by
  simp [requestLoop, h]

theorem C5_requestLoop_backoff_witness :
    requestLoop 3 0 [NetResult.resp 429 "", NetResult.resp 200 "{}"] =
      ((requestLoop 3 1 [NetResult.resp 200 "{}"]).1,
        2 ^ 0 :: (requestLoop 3 1 [NetResult.resp 200 "{}"]).2) :=
  C5_requestLoop_backoff 3 0 "" [NetResult.resp 200 "{}"] (by decide)

/-- Outcome of one `PodManager.create_pod` call for a given GPU type id, as
observed by the candidate loop of `cmd_deploy` in `src/main.py`. -/
inductive CreateOutcome
  | ok (pod_id : String)
  | noInstances
  | otherErr
deriving DecidableEq, Repr

/-- Result of the candidate loop of `cmd_deploy`. -/
inductive DeployResult
  | deployed (pod_id : String)
  | allExhausted
  | fatal
deriving DecidableEq, Repr

/-- The keyword parameters accepted by `PodManager.create_pod`
(src/modules/pod_manager.py lines 22-30): note `public_key`, not
`ssh_password`. -/
def createPodAcceptedKeywords : List String :=
  ["docker_image", "gpu_type_id", "cloud_type", "is_spot",
   "container_disk_gb", "public_key"]

/-- The keyword arguments `cmd_deploy` passes to
`_pod_manager.create_pod` (src/main.py lines 128-135): the last one is
`ssh_password`, which `create_pod` does not accept. -/
def cmdDeployCreateCallKeywords : List String :=
  ["docker_image", "gpu_type_id", "cloud_type", "is_spot",
   "container_disk_gb", "ssh_password"]

/-- Python's keyword binding check: calling a function with a keyword
argument its signature does not declare raises `TypeError` before the
function body runs. -/
def createCallRaisesTypeError : Bool :=
  cmdDeployCreateCallKeywords.any
    (fun k => !(createPodAcceptedKeywords.contains k))

/-- The `for i, selection in enumerate(candidates)` loop of `cmd_deploy`
(src/main.py): each iteration first binds the keyword arguments of the
`create_pod` call — an unexpected keyword raises `TypeError`, caught by the
generic `except Exception` handler, which returns 1 (`fatal`) — and only a
successfully bound call consults `create` (the body of
`PodManager.create_pod`); a success deploys, `NoInstancesAvailableError`
skips to the next candidate, any other exception aborts, and an exhausted
list is a failure. -/
def cmdDeployLoop (create : String → CreateOutcome) : List GPUSelection → DeployResult
  | [] => .allExhausted
  | c :: rest =>
    if createCallRaisesTypeError then .fatal
    else
      match create c.gpu_type_id with
      | .ok pid => .deployed pid
      | .noInstances => cmdDeployLoop create rest
      | .otherErr => .fatal

/-- C6 (code bug): the client half of the claim holds — an exception
response whose body carries the capacity-exhaustion phrase makes `_request`
raise the distinguished error at once, consuming no further attempt and
sleeping no backoff, shown here at a concrete run — but the orchestrator
half cannot occur in the source: `cmd_deploy` passes the keyword
`ssh_password` to `PodManager.create_pod`, whose signature accepts
`public_key` instead, so the very first candidate's call raises `TypeError`
before any API request; the generic handler returns failure, and the
next-candidate path is unreachable even when every candidate would report
capacity exhaustion. -/
theorem C6_capacity_skip_code_bug :
    createCallRaisesTypeError = true ∧
    cmdDeployLoop (fun _ => CreateOutcome.noInstances) [selA, selB] =
      DeployResult.fatal ∧
    requestLoop 3 0
        [NetResult.resp 500 "There are no longer any instances available."] =
      (ReqResult.noInstances
        ("There are no longer any instances available.".take 100), []) := by
  refine ⟨rfl, rfl, ?_⟩
  have h4 : containsCapacityPhrase
      "There are no longer any instances available." = true := by decide
  simp [requestLoop, h4]

/-- Mirrors `Pod` from `src/modules/api_client.py`.  The port-mapping dict
becomes an association list from container port to external port; the
opaque `gpu` payload (a `Dict[str, Any]` no claim reads) keeps only its
presence. -/
structure Pod where
  id : String
  name : String
  status : String
  desired_status : String
  public_ip : Option String := none
  port_mappings : Option (List (String × Nat)) := none
  gpu : Option Unit := none
deriving DecidableEq, Repr

/-- Python truthiness of an optional string: `None` and `""` are falsy. -/
def optStrTruthy : Option String → Bool
  | none => false
  | some s => !(s == "")

/-- Python truthiness of an optional integer: `None` and `0` are falsy. -/
def optNatTruthy : Option Nat → Bool
  | none => false
  | some n => !(n == 0)

/-- Mirrors the `Pod.ssh_port` property: `None` when the mapping dict is
absent or empty (`if not self.port_mappings`), when key "22" is missing
(`.get("22")`), or when it maps to a falsy value (`int(port) if port else
None`); otherwise the mapped integer.  A total function: no branch can
raise. -/
def Pod.ssh_port (p : Pod) : Option Nat :=
  match p.port_mappings with
  | none => none
  | some m =>
    if m.isEmpty then none
    else
      match m.lookup "22" with
      | none => none
      | some v => if v == 0 then none else some v

/-- The fields `RunPodAPIClient._parse_pod` reads from a pod JSON response.
For the nullable fields the outer option models key presence and the inner
option a JSON `null` value, matching Python's `dict.get`: `data.get(key,
default)` yields the default only when the key is absent, and yields `None`
when the key holds an explicit `null`.  The plain-string fields are
modelled as present-or-absent only, since no claim concerns null values
there. -/
structure PodResponse where
  id : Option String := none
  name : Option String := none
  status : Option String := none
  desiredStatus : Option String := none
  publicIp : Option (Option String) := none
  portMappings : Option (Option (List (String × Nat))) := none
  gpu : Option Unit := none
deriving DecidableEq, Repr

/-- Mirrors `RunPodAPIClient._parse_pod`: defaults `""` for the string
fields, `None` for `publicIp`, and `{}` for `portMappings` — the latter
only when the key is absent, per `dict.get` semantics. -/
def parse_pod (d : PodResponse) : Pod :=
  { id := d.id.getD ""
    name := d.name.getD ""
    status := d.status.getD ""
    desired_status := d.desiredStatus.getD ""
    public_ip := match d.publicIp with | none => none | some v => v
    port_mappings := match d.portMappings with | none => some [] | some v => v
    gpu := d.gpu }

/-- C10 counterexample: a pod response whose `portMappings` key holds an
explicit JSON `null` parses to a `Pod` with no mapping dictionary at all —
`dict.get("portMappings", {})` returns `None`, not the `{}` default — so
the absent-mapping branch of `ssh_port` is reachable from `_parse_pod`,
not only for directly constructed pods as the claim states. -/
theorem C10_parse_pod_null_counterexample :
    (parse_pod { portMappings := some none }).port_mappings = none ∧
    (parse_pod { portMappings := some none }).ssh_port = none := by
  exact ⟨rfl, rfl⟩

/-- C10 (amended): `Pod.ssh_port` is total and returns `none` when the
mapping dict is absent, empty, lacks key "22", or maps "22" to the falsy 0,
and otherwise returns the mapped integer; `_parse_pod` gives the pod a
(possibly empty) mapping dictionary whenever the response's `portMappings`
key is absent or holds a dictionary, while an explicit JSON `null` there
yields an absent mapping, so the absent branch is also reachable from
parsing. -/
theorem C10_ssh_port_spec (p : Pod) (d : PodResponse) :
    (p.port_mappings = none → p.ssh_port = none) ∧
    (p.port_mappings = some [] → p.ssh_port = none) ∧
    (∀ m, p.port_mappings = some m → m.lookup "22" = none → p.ssh_port = none) ∧
    (∀ m, p.port_mappings = some m → m.lookup "22" = some 0 → p.ssh_port = none) ∧
    (∀ m v, p.port_mappings = some m → m.lookup "22" = some v → v ≠ 0 →
      p.ssh_port = some v) ∧
    (d.portMappings = none → (parse_pod d).port_mappings = some []) ∧
    (∀ m, d.portMappings = some (some m) → (parse_pod d).port_mappings = some m) := by
  refine ⟨?_, ?_, ?_, ?_, ?_, ?_, ?_⟩
  · intro h; simp [Pod.ssh_port, h]
  · intro h; simp [Pod.ssh_port, h]
  · intro m hm hl
    rw [Pod.ssh_port, hm]
    cases m with
    | nil => rfl
    | cons x xs => simp [hl]
  · intro m hm hl
    rw [Pod.ssh_port, hm]
    cases m with
    | nil => simp at hl
    | cons x xs => simp [hl]
  · intro m v hm hl hv
    rw [Pod.ssh_port, hm]
    cases m with
    | nil => simp at hl
    | cons x xs =>
      have hv' : (v == 0) = false := by simpa using hv
      simp [hl, hv']
  · intro h; simp [parse_pod, h]
  · intro m h; simp [parse_pod, h]

theorem C10_ssh_port_spec_witness :
    ({ id := "p", name := "n", status := "RUNNING", desired_status := "RUNNING",
       public_ip := some "1.2.3.4", port_mappings := some [("22", 10022)],
       gpu := none : Pod }).ssh_port = some 10022 :=
  (C10_ssh_port_spec
    { id := "p", name := "n", status := "RUNNING", desired_status := "RUNNING",
      public_ip := some "1.2.3.4", port_mappings := some [("22", 10022)],
      gpu := none } {}).2.2.2.2.1
    [("22", 10022)] 10022 rfl (by decide) (by decide)

/-- One iteration of the polling loop in `PodManager.wait_for_running`
(src/modules/pod_manager.py): `fetchErr` is a `get_pod` call that raised
(logged, loop continues), `snapshot p gql` is a successful fetch paired
with what `get_pod_ssh_port_from_graphql` would return on this iteration
(`none` also covers that helper's swallowed exceptions). -/
inductive PollStep
  | fetchErr
  | snapshot (p : Pod) (gql : Option Nat)
deriving DecidableEq, Repr

/-- Outcome of `wait_for_running`: `(True, pod)`, `(False, pod)` on a
terminal status, or `(False, None)` on timeout. -/
inductive WaitResult
  | running (p : Pod)
  | failed (p : Pod)
  | timedOut
deriving DecidableEq, Repr

/-- The ready condition of one iteration: desired status `RUNNING` and a
truthy public IP, with the SSH port resolved from `pod.ssh_port` first and
from the GraphQL fallback when that is falsy, then `if ssh_port and
pod.public_ip`. -/
def readyCheck (p : Pod) (gql : Option Nat) : Bool :=
  if p.desired_status == "RUNNING" && optStrTruthy p.public_ip then
    optNatTruthy (if optNatTruthy p.ssh_port then p.ssh_port else gql) &&
      optStrTruthy p.public_ip
  else false

/-- The terminal-status test `pod.desired_status in ["EXITED", "TERMINATED",
"CREATED"]`. -/
def isTerminalStatus (s : String) : Bool :=
  s == "EXITED" || s == "TERMINATED" || s == "CREATED"

/-- One snapshot-bearing iteration of the polling loop: return running on
readiness, failure on a terminal desired status, otherwise keep polling. -/
def waitStep (p : Pod) (gql : Option Nat) : Option WaitResult :=
  if readyCheck p gql then some (.running p)
  else if isTerminalStatus p.desired_status then some (.failed p)
  else none

/-- Mirrors `PodManager.wait_for_running`: the steps list holds one entry
per iteration the `while time.time() - start_time < timeout` window admits
(each iteration ends in a fixed `poll_interval` sleep); running out of
entries is the timeout return `(False, None)`. -/
def wait_for_running : List PollStep → WaitResult
  | [] => .timedOut
  | PollStep.fetchErr :: rest => wait_for_running rest
  | PollStep.snapshot p gql :: rest =>
    match waitStep p gql with
    | some r => r
    | none => wait_for_running rest

theorem readyCheck_eq_true {p : Pod} {gql : Option Nat} :
    readyCheck p gql = true ↔
      p.desired_status = "RUNNING" ∧ optStrTruthy p.public_ip = true ∧
      optNatTruthy (if optNatTruthy p.ssh_port then p.ssh_port else gql) = true := by
  rw [readyCheck]
  split
  next h =>
    rw [Bool.and_eq_true, beq_iff_eq] at h
    simp [h.1, h.2]
  next h =>
    rw [Bool.and_eq_true, beq_iff_eq] at h
    constructor
    · intro hf; exact absurd hf (by simp)
    · intro ⟨h1, h2, _⟩; exact absurd ⟨h1, h2⟩ h

theorem waitStep_eq_running {p q : Pod} {gql : Option Nat}
    (h : waitStep p gql = some (WaitResult.running q)) :
    p = q ∧ readyCheck p gql = true := by
  rw [waitStep] at h
  split at h
  next hr => exact ⟨by injection h with h1; injection h1, hr⟩
  next =>
    split at h
    · injection h with h1; exact absurd h1 (by simp)
    · exact absurd h (by simp)

/-- C7: `wait_for_running` returns timeout when the poll window closes with
no decisive snapshot; returns success with the snapshot when a fetched
snapshot has desired status RUNNING, a (truthy) public IP and a resolvable
SSH port (from the REST port map, or the GraphQL fallback when that map
gives nothing); when both the port map and the fallback give nothing, that
iteration does not satisfy readiness and polling continues without
crashing; a snapshot with desired status EXITED, TERMINATED or CREATED
returns failure immediately with that snapshot; the terminal-status failure
is distinguishable from the timeout failure; and any success was witnessed
by such a ready snapshot among the polled steps. -/
theorem C7_wait_for_running_spec :
    (wait_for_running [] = WaitResult.timedOut) ∧
    (∀ (p : Pod) (gql : Option Nat) (rest : List PollStep),
      p.desired_status = "RUNNING" → optStrTruthy p.public_ip = true →
      optNatTruthy (if optNatTruthy p.ssh_port then p.ssh_port else gql) = true →
      wait_for_running (PollStep.snapshot p gql :: rest) = WaitResult.running p) ∧
    (∀ (p : Pod) (rest : List PollStep),
      p.desired_status = "RUNNING" → optNatTruthy p.ssh_port = false →
      wait_for_running (PollStep.snapshot p none :: rest) = wait_for_running rest) ∧
    (∀ (p : Pod) (gql : Option Nat) (rest : List PollStep),
      (p.desired_status = "EXITED" ∨ p.desired_status = "TERMINATED" ∨
        p.desired_status = "CREATED") →
      wait_for_running (PollStep.snapshot p gql :: rest) = WaitResult.failed p) ∧
    (∀ p : Pod, WaitResult.failed p ≠ WaitResult.timedOut) ∧
    (∀ (steps : List PollStep) (p : Pod),
      wait_for_running steps = WaitResult.running p →
      ∃ gql, PollStep.snapshot p gql ∈ steps ∧ p.desired_status = "RUNNING" ∧
        optStrTruthy p.public_ip = true ∧
        optNatTruthy (if optNatTruthy p.ssh_port then p.ssh_port else gql) = true) := by
  refine ⟨rfl, ?_, ?_, ?_, ?_, ?_⟩
  · intro p gql rest h1 h2 h3
    have hr : readyCheck p gql = true := readyCheck_eq_true.mpr ⟨h1, h2, h3⟩
    simp [wait_for_running, waitStep, hr]
  · intro p rest h1 h2
    have hr : readyCheck p none = false := by
      rw [readyCheck]
      split
      · rw [h2]
        simp [optNatTruthy]
      · rfl
    have ht : isTerminalStatus p.desired_status = false := by
      rw [isTerminalStatus, h1]; rfl
    simp [wait_for_running, waitStep, hr, ht]
  · intro p gql rest h1
    have hr : readyCheck p gql = false := by
      rw [readyCheck]
      split
      next h =>
        rw [Bool.and_eq_true, beq_iff_eq] at h
        rcases h1 with h1 | h1 | h1 <;> rw [h1] at h <;> exact absurd h.1 (by decide)
      · rfl
    have ht : isTerminalStatus p.desired_status = true := by
      rw [isTerminalStatus]
      rcases h1 with h1 | h1 | h1 <;> rw [h1] <;> rfl
    simp [wait_for_running, waitStep, hr, ht]
  · intro p h; exact absurd h (by simp)
  · intro steps
    induction steps with
    | nil => intro p h; exact absurd h (by simp [wait_for_running])
    | cons s rest ih =>
      intro p h
      cases s with
      | fetchErr =>
        rw [wait_for_running] at h
        obtain ⟨gql, hmem, hrest⟩ := ih p h
        exact ⟨gql, List.mem_cons_of_mem _ hmem, hrest⟩
      | snapshot q gql =>
        rw [wait_for_running] at h
        cases hw : waitStep q gql with
        | none =>
          rw [hw] at h
          obtain ⟨gql2, hmem, hrest⟩ := ih p h
          exact ⟨gql2, List.mem_cons_of_mem _ hmem, hrest⟩
        | some r =>
          rw [hw] at h
          subst h
          obtain ⟨heq, hr⟩ := waitStep_eq_running hw
          subst heq
          obtain ⟨h1, h2, h3⟩ := readyCheck_eq_true.mp hr
          exact ⟨gql, List.mem_cons_self _ _, h1, h2, h3⟩

theorem C7_wait_for_running_spec_witness :
    wait_for_running
        [PollStep.snapshot
          { id := "p", name := "n", status := "RUNNING", desired_status := "RUNNING",
            public_ip := some "1.2.3.4", port_mappings := some [("22", 10022)],
            gpu := none } none] =
      WaitResult.running
        { id := "p", name := "n", status := "RUNNING", desired_status := "RUNNING",
          public_ip := some "1.2.3.4", port_mappings := some [("22", 10022)],
          gpu := none } :=
  C7_wait_for_running_spec.2.1
    { id := "p", name := "n", status := "RUNNING", desired_status := "RUNNING",
      public_ip := some "1.2.3.4", port_mappings := some [("22", 10022)],
      gpu := none } none [] rfl (by decide) (by decide)

/-- Mirrors `PodManager.terminate_pod` (src/modules/pod_manager.py) acting
on the manager's `current_pod_id`.  The API client's `terminate_pod`
catches every exception and returns a boolean, so it is modelled as the
oracle `api`; `target_id = pod_id or self.current_pod_id` uses Python
truthiness; an untruthy target returns True at once.  Result: (returned
success flag, new `current_pod_id`).  Total: no path raises. -/
def terminate_pod (current : Option String) (pod_id : Option String)
    (api : String → Bool) : Bool × Option String :=
  match (if optStrTruthy pod_id then pod_id else current) with
  | none => (true, current)
  | some t =>
    if t == "" then (true, current)
    else if api t then (true, if current == some t then none else current)
    else (false, current)

/-- C8: `terminate_pod` defaults to the active pod id when given none;
on success it clears the active id when the target matched it; on failure
it returns False without raising; and the default-id call is idempotent:
after a successful call cleared the active id, a second call finds no
target and succeeds. -/
theorem C8_terminate_pod_spec (t : String) (api : String → Bool) (ht : t ≠ "") :
    (terminate_pod (some t) none api = terminate_pod (some t) (some t) api) ∧
    (api t = true →
      terminate_pod (some t) none api = (true, none) ∧
      ∀ api2 : String → Bool,
        terminate_pod (terminate_pod (some t) none api).2 none api2 = (true, none)) ∧
    (api t = false → terminate_pod (some t) none api = (false, some t)) ∧
    terminate_pod none none api = (true, none) := by
  have ht' : (t == "") = false := by simpa using ht
  refine ⟨?_, ?_, ?_, rfl⟩
  · simp [terminate_pod, optStrTruthy, ht']
  · intro ha
    have h1 : terminate_pod (some t) none api = (true, none) := by
      simp [terminate_pod, optStrTruthy, ht', ha]
    rw [h1]
    exact ⟨rfl, fun api2 => rfl⟩
  · intro ha
    simp [terminate_pod, optStrTruthy, ht', ha]

theorem C8_terminate_pod_spec_witness :
    (terminate_pod (some "pod-1") none (fun _ => true) =
      terminate_pod (some "pod-1") (some "pod-1") (fun _ => true)) ∧
    ((fun _ => true : String → Bool) "pod-1" = true →
      terminate_pod (some "pod-1") none (fun _ => true) = (true, none) ∧
      ∀ api2 : String → Bool,
        terminate_pod (terminate_pod (some "pod-1") none (fun _ => true)).2 none
          api2 = (true, none)) ∧
    ((fun _ => true : String → Bool) "pod-1" = false →
      terminate_pod (some "pod-1") none (fun _ => true) = (false, some "pod-1")) ∧
    terminate_pod none none (fun _ => true) = (true, none) :=
  C8_terminate_pod_spec "pod-1" (fun _ => true) (by decide)

/-- Behaviour of one tracked tunnel process under `SSHTunnel.stop_all`
(src/modules/ssh_tunnel.py): a `subprocess.Popen` that either exits within
the 5 second grace of `wait(timeout=5)` or must be killed after
`TimeoutExpired`, a pexpect-style handle offering only `close`, or a handle
whose `terminate` raises so the fallback `kill` runs (its own exception
swallowed). -/
inductive TunnelProc
  | popen (exitsInGrace : Bool)
  | pexpectHandle
  | termRaises
deriving DecidableEq, Repr

/-- A signal `stop_all` sends to one tracked process. -/
inductive TunnelAction
  | term
  | kill
  | close
deriving DecidableEq, Repr

/-- Per-process body of the `for process in self.processes` loop of
`stop_all`: graceful terminate, escalation to kill on grace timeout,
`close` for pexpect handles, fallback kill when terminate raises. -/
def stopProc : TunnelProc → List TunnelAction
  | .popen true => [.term]
  | .popen false => [.term, .kill]
  | .pexpectHandle => [.close]
  | .termRaises => [.term, .kill]

/-- Mirrors `SSHTunnel.stop_all`: early return when nothing is tracked,
otherwise signal every tracked process and `self.processes.clear()`.
Returns the emitted signals and the new tracked-process list. -/
def stop_all (processes : List TunnelProc) : List TunnelAction × List TunnelProc :=
  if processes.isEmpty then ([], processes)
  else ((processes.map stopProc).flatten, [])

/-- C9: `stop_all` always leaves the tracked-process set empty; called with
no tracked processes it is a no-op emitting no signal and raising nothing;
hence the second of two consecutive calls is such a no-op, so repeated
calls are safe. -/
theorem C9_stop_all_clears (processes : List TunnelProc) :
    (stop_all processes).2 = [] ∧
    stop_all ([] : List TunnelProc) = ([], []) ∧
    stop_all (stop_all processes).2 = ([], []) := by
  refine ⟨?_, rfl, ?_⟩ <;> cases processes <;> simp [stop_all]

end Lorel
